import Mathlib

/-!
Verification of the S&OP / DRP planning engine of this repository.

The repository drives its engine from `main_sop.py`, `run_balanced_optimization.py`
and `run_all_sop.py`.  The engine modules themselves (`inventory/projections.py`,
`replenishment/drp.py`, `optimization/balanced_sop.py`, `simulation/drp_simulator.py`)
are referenced by those scripts but are not part of the checked-in sources; where
an engine definition is needed it is modelled from the specification (`spec.md`),
as marked on each definition.  Quantities are embedded as `Nat` (demand, supply,
order quantities) and `Int` (inventory balances, which may go negative as the
stockout signal); ratios such as service level and ABC cumulative percentages are
exact rationals (`ℚ`) derived from the integer counters stored in each row.
-/

/-- SKU Master Registry record (spec §3): static per-SKU attributes. -/
structure SKURecord where
  sku_id : String
  opening_inventory : Int
  safety_stock : Int
  max_stock : Int
  lead_time_days : Nat
  moq : Nat
  shelf_life_days : Nat
deriving Repr, DecidableEq, Inhabited

/-- Modelled from the spec: conversion of `lead_time_days` to the weekly period
cadence used by the missing `replenishment/drp.py` planner ("converted to the
period cadence", spec §4.2 step 5); a lead time of 7 days is exactly one period,
and partial weeks round up so a receipt never lands before the lead time has
elapsed. -/
def leadTimePeriods (sku : SKURecord) : Nat :=
  (sku.lead_time_days + 6) / 7

/-- Projection Row (spec §3): one per SKU per period, output of the Inventory
Projector.  `coverage_days` and `low_coverage` are derived functions below. -/
structure ProjectionRow where
  period : Nat
  opening_balance : Int
  demand : Nat
  scheduled_supply : Nat
  closing_balance : Int
  stockout_risk : Bool
  below_safety : Bool
deriving Repr, DecidableEq, Inhabited

/-- Modelled from the spec: `coverage_days = closing_balance / (demand / 7)`
when demand is positive, else the "infinite coverage" sentinel (`none`),
spec §3 with a 7-day weekly period. -/
def ProjectionRow.coverage_days (row : ProjectionRow) : Option ℚ :=
  if row.demand = 0 then none
  else some ((row.closing_balance : ℚ) / ((row.demand : ℚ) / 7))

/-- Modelled from the spec: `low_coverage = coverage_days < configured_threshold`
(spec §3); the infinite-coverage sentinel is never low. -/
def ProjectionRow.low_coverage (row : ProjectionRow) (covTh : ℚ) : Bool :=
  match row.coverage_days with
  | none => false
  | some c => decide (c < covTh)

/-- Modelled from the spec: the Inventory Projector rollforward of
`inventory/projections.py` (missing from the checked-in sources), spec §4.1 and
§3: `closing_balance = opening_balance + scheduled_supply - demand`, not clipped
below zero; `stockout_risk = closing_balance < 0`; `below_safety =
closing_balance < safety_stock`.  Input `flows` is the per-period list of
(demand, supply) pairs, one per period with no gaps. -/
def projectFrom (sku : SKURecord) :
    Nat → Int → List (Nat × Nat) → List ProjectionRow
  | _, _, [] => []
  | t, bal, (d, s) :: rest =>
      let closing : Int := bal + (s : Int) - (d : Int)
      let row : ProjectionRow :=
        ⟨t, bal, d, s, closing,
          decide (closing < 0),
          decide (closing < sku.safety_stock)⟩
      row :: projectFrom sku (t + 1) closing rest

/-- Modelled from the spec: the per-SKU baseline projection (spec §4.1), started
at period 0 from the SKU's opening inventory, with no injected orders. -/
def projectSKU (sku : SKURecord) (flows : List (Nat × Nat)) : List ProjectionRow :=
  projectFrom sku 0 sku.opening_inventory flows

lemma projectFrom_row_spec (sku : SKURecord) :
    ∀ (flows : List (Nat × Nat)) (t : Nat) (bal : Int) (row : ProjectionRow),
      row ∈ projectFrom sku t bal flows →
      row.closing_balance
          = row.opening_balance + (row.scheduled_supply : Int) - (row.demand : Int)
        ∧ (row.stockout_risk = true ↔ row.closing_balance < 0) := by
  intro flows
  induction flows with
  | nil => intro t bal row h; simp [projectFrom] at h
  | cons f rest ih =>
      intro t bal row h
      obtain ⟨d, s⟩ := f
      simp only [projectFrom, List.mem_cons] at h
      rcases h with h | h
      · subst h
        refine ⟨rfl, ?_⟩
        simp
      · exact ih (t + 1) _ row h

/-- C2: For every SKU and every period, the Inventory Projector's closing
balance equals `opening_balance + scheduled_supply - demand` exactly, with no
clipping at zero, and `stockout_risk` holds exactly when the closing balance is
negative. -/
theorem projector_closing_balance (sku : SKURecord)
    (flows : List (Nat × Nat)) (row : ProjectionRow)
    (hrow : row ∈ projectSKU sku flows) :
    row.closing_balance
        = row.opening_balance + (row.scheduled_supply : Int) - (row.demand : Int)
      ∧ (row.stockout_risk = true ↔ row.closing_balance < 0) :=
  projectFrom_row_spec sku flows 0 sku.opening_inventory row hrow

/-- Witness SKU for concrete runs: the single-SKU example of spec §8
(opening 150, safety stock 50, max stock 500, lead time 7 days, MOQ 100). -/
def wSKU : SKURecord :=
  ⟨"SKU001", 150, 50, 500, 7, 100, 365⟩

/-- Witness flows: constant weekly demand 40 with zero scheduled supply. -/
def wFlows : List (Nat × Nat) :=
  [(40, 0), (40, 0), (40, 0), (40, 0), (40, 0), (40, 0)]

/-- Witness projection row: period 3 of the baseline projection of `wSKU`
(closing balance 150 - 4*40 = -10, a stockout). -/
def wProjRow : ProjectionRow :=
  (projectSKU wSKU wFlows).getD 3 default

theorem projector_closing_balance_witness :
    (wProjRow ∈ projectSKU wSKU wFlows)
      ∧ (wProjRow.closing_balance
            = wProjRow.opening_balance + (wProjRow.scheduled_supply : Int)
                - (wProjRow.demand : Int)
          ∧ (wProjRow.stockout_risk = true ↔ wProjRow.closing_balance < 0)) :=
  ⟨by decide, projector_closing_balance wSKU wFlows wProjRow (by decide)⟩

/-- Order reason (spec §3). -/
inductive OrderReason
  | BELOW_SAFETY_STOCK
  | PROJECTED_STOCKOUT
  | SCHEDULED
deriving Repr, DecidableEq, Inhabited

/-- Order Record (spec §3): created by the DRP Planner, never mutated. -/
structure OrderRecord where
  sku_id : String
  order_period : Nat
  receipt_period : Nat
  order_quantity : Nat
  reason : OrderReason
deriving Repr, DecidableEq, Inhabited

/-- Plan Row (spec §3): one per SKU per period, output of the DRP Planner.
`cum_demand` and `cum_fulfilled` are the cumulative total and fulfilled demand
through this period; `service_level` is a derived function below. -/
structure PlanRow where
  period : Nat
  opening_balance : Int
  demand : Nat
  scheduled_supply : Nat
  final_inventory : Int
  order_needed : Bool
  order_quantity : Nat
  stockout : Bool
  cum_demand : Nat
  cum_fulfilled : Nat
deriving Repr, DecidableEq, Inhabited

/-- Modelled from the spec: `service_level` = cumulative fulfilled demand ÷
cumulative demand through this period, expressed 0-100 (spec §3); with no
demand yet, nothing has been missed and the level is the full 100. -/
def PlanRow.service_level (row : PlanRow) : ℚ :=
  if row.cum_demand = 0 then 100
  else 100 * (row.cum_fulfilled : ℚ) / (row.cum_demand : ℚ)

/-- Modelled from the spec: upward MOQ quantization (spec §4.2 step 4): the raw
shortfall is rounded upward to the nearest multiple of `moq`; a non-positive
shortfall needs no quantity. -/
def quantizeUpMOQ (shortfall : Int) (moq : Nat) : Nat :=
  ((shortfall.toNat + moq - 1) / moq) * moq

/-- DRP Planner state carried from period to period (spec §4.2): current
balance, cumulative fulfilled/total demand, and the outstanding orders not yet
received; `orders` and `rows` accumulate the planner's output. -/
structure DRPState where
  period : Nat
  balance : Int
  cum_demand : Nat
  cum_fulfilled : Nat
  outstanding : List OrderRecord
  orders : List OrderRecord
  rows : List PlanRow
deriving Repr, DecidableEq, Inhabited

/-- Sum of the order quantities of outstanding orders whose receipt period is
the current period (spec §4.2 step 1). -/
def dueReceipts (outstanding : List OrderRecord) (t : Nat) : Nat :=
  ((outstanding.filter (fun o => o.receipt_period = t)).map
    (fun o => o.order_quantity)).sum

/-- Modelled from the spec: one per-period transition of the DRP Planner
(`replenishment/drp.py`, missing from the checked-in sources), spec §4.2:
1. apply receipts due this period plus exogenous scheduled supply;
2. subtract demand, clipping fulfilled demand to the available balance and
   reporting a possibly negative balance as the shortfall magnitude;
3. trigger a new order when the post-consumption projected balance is below
   `safety_stock` and the period is not inside the frozen horizon;
4. size it as `max_stock - projected_balance_after_demand`, quantized upward to
   the nearest multiple of `moq` (overshoot past `max_stock` accepted);
5. schedule its receipt `leadTimePeriods` later, with reason
   `PROJECTED_STOCKOUT` when the uncorrected balance was already negative,
   else `BELOW_SAFETY_STOCK`;
6. emit the Plan Row with the post-decision state. -/
def drpStep (sku : SKURecord) (fh : Nat) (dmd sup : Nat) (st : DRPState) : DRPState :=
  let t := st.period
  let available : Int := st.balance + (sup : Int) + (dueReceipts st.outstanding t : Int)
  let projected : Int := available - (dmd : Int)
  let fulfilled : Nat := min dmd available.toNat
  let cd := st.cum_demand + dmd
  let cf := st.cum_fulfilled + fulfilled
  let qty : Nat :=
    if projected < sku.safety_stock ∧ fh ≤ t then
      quantizeUpMOQ (sku.max_stock - projected) sku.moq
    else 0
  let newOrders : List OrderRecord :=
    if projected < sku.safety_stock ∧ fh ≤ t then
      [⟨sku.sku_id, t, t + leadTimePeriods sku, qty,
        if projected < 0 then .PROJECTED_STOCKOUT else .BELOW_SAFETY_STOCK⟩]
    else []
  let row : PlanRow :=
    ⟨t, st.balance, dmd, sup, projected,
      decide (projected < sku.safety_stock ∧ fh ≤ t), qty,
      decide (projected < 0), cd, cf⟩
  { period := t + 1
    balance := projected
    cum_demand := cd
    cum_fulfilled := cf
    outstanding := st.outstanding.filter (fun o => o.receipt_period ≠ t) ++ newOrders
    orders := st.orders ++ newOrders
    rows := st.rows ++ [row] }

/-- Modelled from the spec: run the planner over the remaining periods from a
given state; the terminal condition is the last period of the series. -/
def drpRunFrom (sku : SKURecord) (fh : Nat) : List (Nat × Nat) → DRPState → DRPState
  | [], st => st
  | (d, s) :: rest, st => drpRunFrom sku fh rest (drpStep sku fh d s st)

/-- Modelled from the spec: initial planner state at period 0 with the SKU's
opening inventory, nothing fulfilled, no outstanding orders. -/
def drpInit (sku : SKURecord) : DRPState :=
  ⟨0, sku.opening_inventory, 0, 0, [], [], []⟩

/-- Modelled from the spec: a full per-SKU DRP Planner run (spec §4.2) over the
per-period (demand, supply) list with frozen horizon `fh` (in weeks counted
from period zero). -/
def drpRun (sku : SKURecord) (fh : Nat) (flows : List (Nat × Nat)) : DRPState :=
  drpRunFrom sku fh flows (drpInit sku)

/-- The planner-state invariant behind claims C1, C3, C4 and C5: every emitted
order has a lead-time-consistent receipt period and was placed outside the
frozen horizon; cumulative fulfilled demand never exceeds cumulative demand;
every emitted row either needed no order and has quantity zero, or needed one,
was below the safety floor, and carries the MOQ-quantized shortfall; and each
row's cumulative counters are consistent. -/
def DRPInv (sku : SKURecord) (fh : Nat) (st : DRPState) : Prop :=
  (∀ o ∈ st.orders,
      o.receipt_period = o.order_period + leadTimePeriods sku ∧ fh ≤ o.order_period)
  ∧ st.cum_fulfilled ≤ st.cum_demand
  ∧ (∀ row ∈ st.rows,
      (row.order_needed = false → row.order_quantity = 0)
      ∧ (row.order_needed = true →
          row.final_inventory < sku.safety_stock
          ∧ row.order_quantity
              = quantizeUpMOQ (sku.max_stock - row.final_inventory) sku.moq)
      ∧ row.cum_fulfilled ≤ row.cum_demand)

lemma drpStep_inv (sku : SKURecord) (fh : Nat) (dmd sup : Nat) (st : DRPState)
    (h : DRPInv sku fh st) : DRPInv sku fh (drpStep sku fh dmd sup st) := by
  obtain ⟨ho, hc, hr⟩ := h
  refine ⟨?_, ?_, ?_⟩
  · intro o hmem
    simp only [drpStep, List.mem_append] at hmem
    rcases hmem with hmem | hmem
    · exact ho o hmem
    · split_ifs at hmem with htr
      · simp only [List.mem_singleton] at hmem
        subst hmem
        exact ⟨rfl, htr.2⟩
      · simp only [List.mem_singleton] at hmem
        subst hmem
        exact ⟨rfl, htr.2⟩
      · simp at hmem
  · simp only [drpStep]
    have : min dmd (st.balance + (sup : Int)
        + (dueReceipts st.outstanding st.period : Int)).toNat ≤ dmd :=
      Nat.min_le_left _ _
    omega
  · intro row hmem
    simp only [drpStep, List.mem_append, List.mem_singleton] at hmem
    rcases hmem with hmem | hmem
    · exact hr row hmem
    · subst hmem
      refine ⟨?_, ?_, ?_⟩
      · intro hfalse
        simp only [decide_eq_false_iff_not] at hfalse
        simp only [if_neg hfalse]
      · intro htrue
        simp only [decide_eq_true_eq] at htrue
        refine ⟨htrue.1, ?_⟩
        rw [if_pos htrue]
      · have : min dmd (st.balance + (sup : Int)
            + (dueReceipts st.outstanding st.period : Int)).toNat ≤ dmd :=
          Nat.min_le_left _ _
        simp only
        omega

lemma drpRunFrom_inv (sku : SKURecord) (fh : Nat) :
    ∀ (flows : List (Nat × Nat)) (st : DRPState),
      DRPInv sku fh st → DRPInv sku fh (drpRunFrom sku fh flows st) := by
  intro flows
  induction flows with
  | nil => intro st h; exact h
  | cons f rest ih =>
      intro st h
      obtain ⟨d, s⟩ := f
      exact ih _ (drpStep_inv sku fh d s st h)

lemma drpInit_inv (sku : SKURecord) (fh : Nat) : DRPInv sku fh (drpInit sku) := by
  refine ⟨?_, ?_, ?_⟩ <;> simp [drpInit]

lemma drpRun_inv (sku : SKURecord) (fh : Nat) (flows : List (Nat × Nat)) :
    DRPInv sku fh (drpRun sku fh flows) :=
  drpRunFrom_inv sku fh flows (drpInit sku) (drpInit_inv sku fh)

lemma quantizeUpMOQ_bounds (s : Int) (m : Nat) (hm : 0 < m) :
    s.toNat ≤ quantizeUpMOQ s m ∧ quantizeUpMOQ s m < s.toNat + m := by
  unfold quantizeUpMOQ
  obtain hdm := Nat.div_add_mod (s.toNat + m - 1) m
  obtain hmod := Nat.mod_lt (s.toNat + m - 1) hm
  set q := (s.toNat + m - 1) / m with hq
  set r := (s.toNat + m - 1) % m with hr
  have hcomm : q * m = m * q := Nat.mul_comm q m
  rw [hcomm]
  generalize hz : m * q = z at hdm ⊢
  omega

lemma quantizeUpMOQ_dvd (s : Int) (m : Nat) : m ∣ quantizeUpMOQ s m := by
  unfold quantizeUpMOQ
  exact dvd_mul_left m _

/-- C1: For every SKU and every period of a DRP Planner run, the emitted
`order_quantity` is either zero (no order needed) or a positive exact multiple
of that SKU's MOQ; when an order is triggered its size is the raw shortfall
`max_stock - projected_balance_after_demand` rounded upward to the nearest
multiple of `moq` (the least multiple of `moq` at or above the shortfall). -/
theorem drp_order_quantity_moq (sku : SKURecord) (fh : Nat)
    (flows : List (Nat × Nat)) (hmoq : 0 < sku.moq)
    (hmax : sku.safety_stock ≤ sku.max_stock)
    (row : PlanRow) (hrow : row ∈ (drpRun sku fh flows).rows) :
    (row.order_needed = false ∧ row.order_quantity = 0)
    ∨ (row.order_needed = true ∧ 0 < row.order_quantity
        ∧ sku.moq ∣ row.order_quantity
        ∧ (sku.max_stock - row.final_inventory).toNat ≤ row.order_quantity
        ∧ row.order_quantity
            < (sku.max_stock - row.final_inventory).toNat + sku.moq) := by
  obtain ⟨-, -, hrows⟩ := drpRun_inv sku fh flows
  obtain ⟨h0, h1, -⟩ := hrows row hrow
  cases hb : row.order_needed with
  | false => exact Or.inl ⟨rfl, h0 hb⟩
  | true =>
      obtain ⟨hlt, hqe⟩ := h1 hb
      have hbounds :=
        quantizeUpMOQ_bounds (sku.max_stock - row.final_inventory) sku.moq hmoq
      refine Or.inr ⟨rfl, ?_, ?_, ?_, ?_⟩
      · rw [hqe]
        have hsh : 0 < sku.max_stock - row.final_inventory := by omega
        omega
      · rw [hqe]
        exact quantizeUpMOQ_dvd _ _
      · rw [hqe]
        exact hbounds.1
      · rw [hqe]
        exact hbounds.2

lemma drpStep_orders_tail (sku : SKURecord) (fh dmd sup : Nat) (st : DRPState) :
    ∃ tl, (drpStep sku fh dmd sup st).orders = st.orders ++ tl :=
  ⟨_, rfl⟩

lemma drpRunFrom_orders_extend (sku : SKURecord) (fh : Nat) :
    ∀ (flows : List (Nat × Nat)) (st : DRPState),
      ∃ tl, (drpRunFrom sku fh flows st).orders = st.orders ++ tl := by
  intro flows
  induction flows with
  | nil => intro st; exact ⟨[], (List.append_nil _).symm⟩
  | cons f rest ih =>
      intro st
      obtain ⟨d, s⟩ := f
      obtain ⟨t0, h0⟩ := drpStep_orders_tail sku fh d s st
      obtain ⟨t1, h1⟩ := ih (drpStep sku fh d s st)
      refine ⟨t0 ++ t1, ?_⟩
      simp only [drpRunFrom]
      rw [h1, h0, List.append_assoc]

lemma drpRunFrom_append (sku : SKURecord) (fh : Nat) :
    ∀ (l1 l2 : List (Nat × Nat)) (st : DRPState),
      drpRunFrom sku fh (l1 ++ l2) st = drpRunFrom sku fh l2 (drpRunFrom sku fh l1 st) := by
  intro l1
  induction l1 with
  | nil => intro l2 st; rfl
  | cons f rest ih =>
      intro l2 st
      obtain ⟨d, s⟩ := f
      simp only [List.cons_append, drpRunFrom]
      exact ih l2 (drpStep sku fh d s st)

/-- C3: Every Order Record created by the DRP Planner has
`receipt_period = order_period + lead_time` converted to the weekly period
cadence, and records are never mutated after creation: running the planner over
further periods only appends to the order list, leaving every already-created
record in place unchanged. -/
theorem drp_receipt_lead_time (sku : SKURecord) (fh : Nat)
    (flows : List (Nat × Nat)) (o : OrderRecord)
    (ho : o ∈ (drpRun sku fh flows).orders) :
    o.receipt_period = o.order_period + leadTimePeriods sku
    ∧ ∀ extra, ∃ tl,
        (drpRun sku fh (flows ++ extra)).orders = (drpRun sku fh flows).orders ++ tl := by
  refine ⟨((drpRun_inv sku fh flows).1 o ho).1, ?_⟩
  intro extra
  unfold drpRun
  rw [drpRunFrom_append sku fh flows extra (drpInit sku)]
  exact drpRunFrom_orders_extend sku fh extra _

/-- C4: In every reachable state of the DRP Planner, no created Order Record
has its `order_period` inside the frozen horizon window counted from period
zero: every emitted order is placed at or after `fh`. -/
theorem drp_orders_outside_frozen_horizon (sku : SKURecord) (fh : Nat)
    (flows : List (Nat × Nat)) (o : OrderRecord)
    (ho : o ∈ (drpRun sku fh flows).orders) :
    ¬ o.order_period < fh := by
  have h := ((drpRun_inv sku fh flows).1 o ho).2
  omega

/-- C5: For every SKU and every period of a Plan Row series, the service level
is cumulative fulfilled demand divided by cumulative demand through that period
on a 0-100 scale, and always satisfies `0 ≤ service_level ≤ 100`. -/
theorem drp_service_level_bounds (sku : SKURecord) (fh : Nat)
    (flows : List (Nat × Nat)) (row : PlanRow)
    (hrow : row ∈ (drpRun sku fh flows).rows) :
    0 ≤ row.service_level ∧ row.service_level ≤ 100
    ∧ (0 < row.cum_demand →
        row.service_level = 100 * (row.cum_fulfilled : ℚ) / (row.cum_demand : ℚ)) := by
  obtain ⟨-, -, hrows⟩ := drpRun_inv sku fh flows
  obtain ⟨-, -, hcf⟩ := hrows row hrow
  unfold PlanRow.service_level
  by_cases hd : row.cum_demand = 0
  · rw [if_pos hd]
    exact ⟨by norm_num, by norm_num, fun h => absurd hd (by omega)⟩
  · have hdpos : (0 : ℚ) < (row.cum_demand : ℚ) :=
      Nat.cast_pos.mpr (Nat.pos_of_ne_zero hd)
    rw [if_neg hd]
    refine ⟨by positivity, ?_, fun _ => rfl⟩
    rw [div_le_iff₀ hdpos]
    have hle : (row.cum_fulfilled : ℚ) ≤ (row.cum_demand : ℚ) := Nat.cast_le.mpr hcf
    linarith

/-- Witness plan row: period 2 of the DRP run of `wSKU` with frozen horizon 1,
the first period whose projected balance (30) falls below the safety stock of
50; it triggers an order of 500 = 5 x MOQ. -/
def wPlanRow : PlanRow :=
  (drpRun wSKU 1 wFlows).rows.getD 2 default

/-- Witness order record: the single order of that run, placed at period 2 with
receipt at period 3. -/
def wOrder : OrderRecord :=
  (drpRun wSKU 1 wFlows).orders.getD 0 default

theorem drp_order_quantity_moq_witness :
    (0 < wSKU.moq ∧ wSKU.safety_stock ≤ wSKU.max_stock
      ∧ wPlanRow ∈ (drpRun wSKU 1 wFlows).rows)
    ∧ ((wPlanRow.order_needed = false ∧ wPlanRow.order_quantity = 0)
        ∨ (wPlanRow.order_needed = true ∧ 0 < wPlanRow.order_quantity
            ∧ wSKU.moq ∣ wPlanRow.order_quantity
            ∧ (wSKU.max_stock - wPlanRow.final_inventory).toNat ≤ wPlanRow.order_quantity
            ∧ wPlanRow.order_quantity
                < (wSKU.max_stock - wPlanRow.final_inventory).toNat + wSKU.moq)) :=
  ⟨by decide,
   drp_order_quantity_moq wSKU 1 wFlows (by decide) (by decide) wPlanRow (by decide)⟩

theorem drp_receipt_lead_time_witness :
    (wOrder ∈ (drpRun wSKU 1 wFlows).orders)
    ∧ (wOrder.receipt_period = wOrder.order_period + leadTimePeriods wSKU
        ∧ ∀ extra, ∃ tl,
            (drpRun wSKU 1 (wFlows ++ extra)).orders
              = (drpRun wSKU 1 wFlows).orders ++ tl) :=
  ⟨by decide, drp_receipt_lead_time wSKU 1 wFlows wOrder (by decide)⟩

theorem drp_orders_outside_frozen_horizon_witness :
    (wOrder ∈ (drpRun wSKU 1 wFlows).orders) ∧ ¬ wOrder.order_period < 1 :=
  ⟨by decide, drp_orders_outside_frozen_horizon wSKU 1 wFlows wOrder (by decide)⟩

theorem drp_service_level_bounds_witness :
    (wPlanRow ∈ (drpRun wSKU 1 wFlows).rows)
    ∧ (0 ≤ wPlanRow.service_level ∧ wPlanRow.service_level ≤ 100
        ∧ (0 < wPlanRow.cum_demand →
            wPlanRow.service_level
              = 100 * (wPlanRow.cum_fulfilled : ℚ) / (wPlanRow.cum_demand : ℚ))) :=
  ⟨by decide, drp_service_level_bounds wSKU 1 wFlows wPlanRow (by decide)⟩

/-- ABC class (spec §4.1 / glossary). -/
inductive ABCClass
  | A
  | B
  | C
deriving Repr, DecidableEq, Inhabited

/-- One entry of the ABC analysis: the SKU, its own total demand, the running
cumulative demand through this entry of the ranking, and the grand total over
all SKUs.  The cumulative percentage is the derived function below. -/
structure ABCEntry where
  sku_id : String
  total_demand : Nat
  cum_demand : Nat
  grand_total : Nat
  abc_class : ABCClass
deriving Repr, DecidableEq, Inhabited

/-- Modelled from the spec: the cumulative percentage of total demand through
this entry of the descending ranking (spec §4.1), expressed 0-100. -/
def ABCEntry.cum_pct (e : ABCEntry) : ℚ :=
  100 * (e.cum_demand : ℚ) / (e.grand_total : ℚ)

/-- Modelled from the spec: the ranking order of `classify_abc` (spec §4.1):
total demand descending, ties broken by SKU id ascending for determinism. -/
def abcBefore (a b : String × Nat) : Bool :=
  b.2 < a.2 || (a.2 == b.2 && a.1 < b.1)

/-- Insertion step of the deterministic sort used by the ABC analysis. -/
def abcInsert (x : String × Nat) : List (String × Nat) → List (String × Nat)
  | [] => [x]
  | y :: ys => if abcBefore x y then x :: y :: ys else y :: abcInsert x ys

/-- Modelled from the spec: sort SKUs by total demand descending, ties by SKU
id ascending (spec §4.1). -/
def abcSort (l : List (String × Nat)) : List (String × Nat) :=
  l.foldr abcInsert []

/-- Modelled from the spec: the 80% / 95% class boundaries on the cumulative
share (spec §4.1).  The comparison `100 * cum ≤ 80 * total` is the exact
integer form of `cum_pct ≤ 80` (for a positive grand total), so the executable
decision involves no rational arithmetic. -/
def abcClassFor (cum total : Nat) : ABCClass :=
  if 100 * cum ≤ 80 * total then .A
  else if 100 * cum ≤ 95 * total then .B
  else .C

/-- Walk the descending ranking accumulating cumulative demand and assigning
classes (spec §4.1). -/
def abcWalk (total : Nat) : Nat → List (String × Nat) → List ABCEntry
  | _, [] => []
  | cum, (i, d) :: rest =>
      ⟨i, d, cum + d, total, abcClassFor (cum + d) total⟩ :: abcWalk total (cum + d) rest

/-- Modelled from the spec: `classify_abc` of `inventory/projections.py`
(missing from the checked-in sources), spec §4.1: sort SKUs by total demand
descending (ties by SKU id ascending), compute each SKU's cumulative percentage
of total demand, and assign class A while the cumulative share is within 80%,
B up to 95%, and C for the remainder.  Input is the per-SKU total demand. -/
def classifyABC (l : List (String × Nat)) : List ABCEntry :=
  abcWalk ((l.map (fun p => p.2)).sum) 0 (abcSort l)

lemma abcWalk_class (total : Nat) :
    ∀ (l : List (String × Nat)) (cum : Nat) (e : ABCEntry),
      e ∈ abcWalk total cum l →
      e.grand_total = total ∧ e.abc_class = abcClassFor e.cum_demand e.grand_total := by
  intro l
  induction l with
  | nil => intro cum e h; simp [abcWalk] at h
  | cons p rest ih =>
      intro cum e h
      obtain ⟨i, d⟩ := p
      simp only [abcWalk, List.mem_cons] at h
      rcases h with h | h
      · subst h; exact ⟨rfl, rfl⟩
      · exact ih (cum + d) e h

lemma abcClassFor_pct (cum total : Nat) (htot : 0 < total) :
    ∀ e : ABCEntry, e.cum_demand = cum → e.grand_total = total →
      abcClassFor cum total
        = (if e.cum_pct ≤ 80 then ABCClass.A
           else if e.cum_pct ≤ 95 then ABCClass.B else ABCClass.C) := by
  intro e hc hg
  have hq : (0 : ℚ) < (total : ℚ) := Nat.cast_pos.mpr htot
  have h80 : (e.cum_pct ≤ 80) ↔ 100 * cum ≤ 80 * total := by
    unfold ABCEntry.cum_pct
    rw [hc, hg, div_le_iff₀ hq]
    constructor
    · intro h
      have := (Nat.cast_le (α := ℚ)).mpr (le_refl (100 * cum))
      exact_mod_cast h
    · intro h
      exact_mod_cast (Nat.cast_le (α := ℚ)).mpr h
  have h95 : (e.cum_pct ≤ 95) ↔ 100 * cum ≤ 95 * total := by
    unfold ABCEntry.cum_pct
    rw [hc, hg, div_le_iff₀ hq]
    constructor
    · intro h
      exact_mod_cast h
    · intro h
      exact_mod_cast (Nat.cast_le (α := ℚ)).mpr h
  unfold abcClassFor
  by_cases hA : 100 * cum ≤ 80 * total
  · rw [if_pos hA, if_pos (h80.mpr hA)]
  · rw [if_neg hA, if_neg (fun hcon => hA (h80.mp hcon))]
    by_cases hB : 100 * cum ≤ 95 * total
    · rw [if_pos hB, if_pos (h95.mpr hB)]
    · rw [if_neg hB, if_neg (fun hcon => hB (h95.mp hcon))]

/-- C6: ABC classification ranks SKUs by total demand descending (ties by SKU
id ascending), computes cumulative shares of total demand, and assigns class A
while the cumulative share is within 80%, B up to 95%, C for the remainder;
for the 3-SKU input with total demands [100, 50, 10] exactly the largest SKU
lands in class A (cumulative shares 62.5%, 93.75%, 100%). -/
theorem classifyABC_thresholds (l : List (String × Nat)) :
    (∀ e ∈ classifyABC l, 0 < e.grand_total →
        e.abc_class
          = (if e.cum_pct ≤ 80 then ABCClass.A
             else if e.cum_pct ≤ 95 then ABCClass.B else ABCClass.C))
    ∧ (classifyABC [("SKU1", 100), ("SKU2", 50), ("SKU3", 10)]).map
          (fun e => (e.sku_id, e.abc_class))
        = [("SKU1", .A), ("SKU2", .B), ("SKU3", .C)] := by
  constructor
  · intro e he htot
    obtain ⟨hg, hcl⟩ := abcWalk_class _ _ _ e he
    rw [hcl]
    exact abcClassFor_pct e.cum_demand e.grand_total htot e rfl rfl
  · decide

/-- Witness ABC entry: the first entry (the largest SKU) of the 3-SKU example. -/
def wABCEntry : ABCEntry :=
  (classifyABC [("SKU1", 100), ("SKU2", 50), ("SKU3", 10)]).getD 0 default

theorem classifyABC_thresholds_witness :
    (wABCEntry ∈ classifyABC [("SKU1", 100), ("SKU2", 50), ("SKU3", 10)]
      ∧ 0 < wABCEntry.grand_total)
    ∧ wABCEntry.abc_class
        = (if wABCEntry.cum_pct ≤ 80 then ABCClass.A
           else if wABCEntry.cum_pct ≤ 95 then ABCClass.B else ABCClass.C) :=
  ⟨⟨by decide, by decide⟩,
   (classifyABC_thresholds [("SKU1", 100), ("SKU2", 50), ("SKU3", 10)]).1
     wABCEntry (by decide) (by decide)⟩

/-- Modelled from the spec: the shared per-period rollforward mechanics (spec
§4.2 steps 1-2, reused by the Optimizer per §4.3): the list of closing balances
from an opening balance over per-period (demand, supply), never clipped. -/
def rollClosings (o : Int) : List (Nat × Nat) → List Int
  | [] => []
  | (d, s) :: rest => (o + (s : Int) - (d : Int)) :: rollClosings (o + (s : Int) - (d : Int)) rest

/-- Modelled from the spec: the per-period fulfilled demand of the same
rollforward: demand clipped to the available (post-receipt) balance
(spec §4.2 step 2). -/
def rollFulfilled (o : Int) : List (Nat × Nat) → List Nat
  | [] => []
  | (d, s) :: rest => min d (o + (s : Int)).toNat :: rollFulfilled (o + (s : Int) - (d : Int)) rest

/-- Count of stockout periods: periods whose closing balance is negative. -/
def countNeg (l : List Int) : Nat :=
  l.countP (fun c => decide (c < 0))

/-- Pending optimizer orders as (receipt_period, quantity) pairs; the receipts
landing at period `t`. -/
def pendingReceipts (pending : List (Nat × Nat)) (t : Nat) : Nat :=
  ((pending.filter (fun p => p.1 = t)).map (fun p => p.2)).sum

/-- Modelled from the spec: average weekly demand over the series, used by the
ROP formula (spec §4.3). -/
def avgWeeklyDemand (flows : List (Nat × Nat)) : ℚ :=
  ((flows.map (fun f => f.1)).sum : ℚ) / (flows.length : ℚ)

/-- Modelled from the spec: the explicit Reorder Point of the Balanced
Optimizer (spec §4.3): `ROP = avg_weekly_demand * lead_time_days / 7 +
safety_stock`. -/
def ropThreshold (sku : SKURecord) (flows : List (Nat × Nat)) : ℚ :=
  avgWeeklyDemand flows * (sku.lead_time_days : ℚ) / 7 + (sku.safety_stock : ℚ)

/-- Modelled from the spec: the Balanced/ROP Optimizer loop of
`optimization/balanced_sop.py` (missing from the checked-in sources), spec
§4.3: reuse the §4.2 rollforward, but trigger an order whenever the projected
balance falls below the ROP, sized to bring the projected balance back to
`max_stock` and MOQ-quantized, received one lead time later.  Returns the
per-period list of extra receipts the optimizer injects on top of the original
supply. -/
def ropGo (sku : SKURecord) (rop : ℚ) :
    Nat → Int → List (Nat × Nat) → List (Nat × Nat) → List Nat
  | _, _, _, [] => []
  | t, bal, pending, (d, s) :: rest =>
      let e := pendingReceipts pending t
      let projected : Int := bal + (s : Int) + (e : Int) - (d : Int)
      let pendingLeft := pending.filter (fun p => p.1 ≠ t)
      if (projected : ℚ) < rop then
        let qty := quantizeUpMOQ (sku.max_stock - projected) sku.moq
        e :: ropGo sku rop (t + 1) projected
              (pendingLeft ++ [(t + leadTimePeriods sku, qty)]) rest
      else
        e :: ropGo sku rop (t + 1) projected pendingLeft rest

/-- Modelled from the spec: the extra receipts of a full optimizer run, from
period 0 with the SKU's opening inventory and no pending orders. -/
def ropExtras (sku : SKURecord) (flows : List (Nat × Nat)) : List Nat :=
  ropGo sku (ropThreshold sku flows) 0 sku.opening_inventory [] flows

/-- The optimized supply plan: original supply plus the optimizer's extra
receipts, period by period. -/
def augmentFlows (flows : List (Nat × Nat)) (extras : List Nat) : List (Nat × Nat) :=
  List.zipWith (fun f e => (f.1, f.2 + e)) flows extras

/-- The "Optimized" per-period flows of a SKU (spec §4.3). -/
def optimizedFlows (sku : SKURecord) (flows : List (Nat × Nat)) : List (Nat × Nat) :=
  augmentFlows flows (ropExtras sku flows)

/-- Stockout periods of the Original (no-intervention baseline) plan. -/
def stockoutsOriginal (sku : SKURecord) (flows : List (Nat × Nat)) : Nat :=
  countNeg (rollClosings sku.opening_inventory flows)

/-- Stockout periods of the Optimized plan. -/
def stockoutsOptimized (sku : SKURecord) (flows : List (Nat × Nat)) : Nat :=
  countNeg (rollClosings sku.opening_inventory (optimizedFlows sku flows))

/-- Total fulfilled demand of the Original plan. -/
def totalFulfilledOriginal (sku : SKURecord) (flows : List (Nat × Nat)) : Nat :=
  (rollFulfilled sku.opening_inventory flows).sum

/-- Total fulfilled demand of the Optimized plan. -/
def totalFulfilledOptimized (sku : SKURecord) (flows : List (Nat × Nat)) : Nat :=
  (rollFulfilled sku.opening_inventory (optimizedFlows sku flows)).sum

lemma ropGo_length (sku : SKURecord) (rop : ℚ) :
    ∀ (flows : List (Nat × Nat)) (t : Nat) (bal : Int) (pending : List (Nat × Nat)),
      (ropGo sku rop t bal pending flows).length = flows.length := by
  intro flows
  induction flows with
  | nil => intro t bal pending; rfl
  | cons f rest ih =>
      intro t bal pending
      obtain ⟨d, s⟩ := f
      simp only [ropGo]
      split_ifs <;> simp [ih]

lemma rollClosings_mono :
    ∀ (flows : List (Nat × Nat)) (extras : List Nat) (o o' : Int),
      extras.length = flows.length → o ≤ o' →
      List.Forall₂ (· ≤ ·) (rollClosings o flows)
        (rollClosings o' (augmentFlows flows extras)) := by
  intro flows
  induction flows with
  | nil =>
      intro extras o o' hlen ho
      simp only [augmentFlows, List.zipWith_nil_left]
      exact List.Forall₂.nil
  | cons f rest ih =>
      intro extras o o' hlen ho
      obtain ⟨d, s⟩ := f
      cases extras with
      | nil => simp at hlen
      | cons e es =>
          simp only [augmentFlows, List.zipWith_cons_cons, rollClosings]
          have hstep : o + (s : Int) - (d : Int) ≤ o' + ((s + e : Nat) : Int) - (d : Int) := by
            push_cast
            omega
          refine List.Forall₂.cons hstep ?_
          have hlen2 : es.length = rest.length := by
            simpa using hlen
          exact ih es _ _ hlen2 hstep

lemma rollFulfilled_mono :
    ∀ (flows : List (Nat × Nat)) (extras : List Nat) (o o' : Int),
      extras.length = flows.length → o ≤ o' →
      List.Forall₂ (· ≤ ·) (rollFulfilled o flows)
        (rollFulfilled o' (augmentFlows flows extras)) := by
  intro flows
  induction flows with
  | nil =>
      intro extras o o' hlen ho
      simp only [augmentFlows, List.zipWith_nil_left]
      exact List.Forall₂.nil
  | cons f rest ih =>
      intro extras o o' hlen ho
      obtain ⟨d, s⟩ := f
      cases extras with
      | nil => simp at hlen
      | cons e es =>
          simp only [augmentFlows, List.zipWith_cons_cons, rollFulfilled]
          have havail : (o + (s : Int)).toNat ≤ (o' + ((s + e : Nat) : Int)).toNat := by
            push_cast
            omega
          refine List.Forall₂.cons (min_le_min_left d havail) ?_
          have hlen2 : es.length = rest.length := by
            simpa using hlen
          have hstep : o + (s : Int) - (d : Int) ≤ o' + ((s + e : Nat) : Int) - (d : Int) := by
            push_cast
            omega
          exact ih es _ _ hlen2 hstep

lemma countNeg_anti :
    ∀ {l l' : List Int}, List.Forall₂ (· ≤ ·) l l' → countNeg l' ≤ countNeg l := by
  intro l l' h
  induction h with
  | nil => exact le_refl 0
  | cons hab _ ih =>
      simp only [countNeg, List.countP_cons] at *
      split_ifs with h1 h2 <;> simp only [decide_eq_true_eq] at * <;> omega

lemma sum_le_of_forall2 :
    ∀ {l l' : List Nat}, List.Forall₂ (· ≤ ·) l l' → l.sum ≤ l'.sum := by
  intro l l' h
  induction h with
  | nil => exact le_refl 0
  | cons hab _ ih =>
      simp only [List.sum_cons]
      omega

/-- C7: For every SKU and the same demand/supply series, the Balanced/ROP
Optimizer's plan has stockout periods less than or equal to the Original
(no-intervention baseline) plan's, and the optimizer never reduces the SKU's
total fulfilled demand relative to the original plan. -/
theorem optimizer_improves (sku : SKURecord) (flows : List (Nat × Nat)) :
    stockoutsOptimized sku flows ≤ stockoutsOriginal sku flows
    ∧ totalFulfilledOriginal sku flows ≤ totalFulfilledOptimized sku flows := by
  have hlen : (ropExtras sku flows).length = flows.length :=
    ropGo_length sku (ropThreshold sku flows) flows 0 sku.opening_inventory []
  constructor
  · exact countNeg_anti
      (rollClosings_mono flows (ropExtras sku flows)
        sku.opening_inventory sku.opening_inventory hlen (le_refl _))
  · exact sum_le_of_forall2
      (rollFulfilled_mono flows (ropExtras sku flows)
        sku.opening_inventory sku.opening_inventory hlen (le_refl _))

/-- One row of the optimization comparison summary
(`outputs/reports/optimization_summary.csv`), as consumed by
`optimization_dashboard.py` and `generate_optimization_charts.py`. -/
structure OptSummaryRow where
  sku_id : String
  stockouts_original : Nat
  stockouts_optimized : Nat
  stockout_reduction : Int
deriving Repr, DecidableEq, Inhabited

/-- Modelled from the spec: `generate_comparison_summary` of
`optimization/balanced_sop.py` (missing from the checked-in sources), spec
§4.3: one summary row per SKU with `stockout_reduction = stockouts_original -
stockouts_optimized`.  Input is the per-SKU (id, original, optimized) stockout
counts. -/
def mkComparisonSummary (data : List (String × Nat × Nat)) : List OptSummaryRow :=
  data.map (fun x => ⟨x.1, x.2.1, x.2.2, (x.2.1 : Int) - (x.2.2 : Int)⟩)

/-- The aggregate stockout reduction exactly as computed by
`optimization_dashboard.py` (lines 91-93) and
`generate_optimization_charts.py` `chart_04_improvement_metrics` (lines
171-173): the sum of the `Stockouts_Original` column minus the sum of the
`Stockouts_Optimized` column. -/
def dashboardStockoutReduction (summary : List OptSummaryRow) : Int :=
  (summary.map (fun r => (r.stockouts_original : Int))).sum
    - (summary.map (fun r => (r.stockouts_optimized : Int))).sum

lemma sum_map_sub (l : List OptSummaryRow) :
    (l.map (fun r => (r.stockouts_original : Int))).sum
        - (l.map (fun r => (r.stockouts_optimized : Int))).sum
      = (l.map (fun r => (r.stockouts_original : Int) - (r.stockouts_optimized : Int))).sum := by
  induction l with
  | nil => simp
  | cons r rest ih =>
      simp only [List.map_cons, List.sum_cons]
      omega

/-- C8: Every comparison summary row reports
`stockout_reduction = stockouts_original - stockouts_optimized`, and the
aggregate reduction shown by the dashboards (sum of originals minus sum of
optimized) equals the sum over SKUs of the per-SKU reductions. -/
theorem stockout_reduction_consistent (data : List (String × Nat × Nat)) :
    (∀ r ∈ mkComparisonSummary data,
        r.stockout_reduction = (r.stockouts_original : Int) - (r.stockouts_optimized : Int))
    ∧ dashboardStockoutReduction (mkComparisonSummary data)
        = ((mkComparisonSummary data).map (fun r => r.stockout_reduction)).sum := by
  constructor
  · intro r hr
    simp only [mkComparisonSummary, List.mem_map] at hr
    obtain ⟨x, -, hx⟩ := hr
    subst hx
    rfl
  · unfold dashboardStockoutReduction
    rw [sum_map_sub]
    congr 1
    apply List.map_congr_left
    intro r hr
    simp only [mkComparisonSummary, List.mem_map] at hr
    obtain ⟨x, -, hx⟩ := hr
    subst hx
    rfl

/-- Witness summary row: first row of a 2-SKU comparison. -/
def wSummaryRow : OptSummaryRow :=
  (mkComparisonSummary [("SKU001", 5, 1), ("SKU002", 3, 3)]).getD 0 default

theorem stockout_reduction_consistent_witness :
    (wSummaryRow ∈ mkComparisonSummary [("SKU001", 5, 1), ("SKU002", 3, 3)])
    ∧ wSummaryRow.stockout_reduction
        = (wSummaryRow.stockouts_original : Int) - (wSummaryRow.stockouts_optimized : Int) :=
  ⟨by decide,
   (stockout_reduction_consistent [("SKU001", 5, 1), ("SKU002", 3, 3)]).1
     wSummaryRow (by decide)⟩

/-- The required Registry columns of `main_sop.py` `load_real_data`
(lines 71-72). -/
def requiredInventoryCols : List String :=
  ["SKU", "Opening_Inventory", "Safety_Stock", "Max_Stock",
   "Lead_Time_Days", "MOQ", "Shelf_Life_Days"]

/-- The required Demand Series columns of `load_real_data` (line 73). -/
def requiredDemandCols : List String :=
  ["SKU", "Period", "Demand"]

/-- The required Supply Series columns of `load_real_data` (line 74). -/
def requiredSupplyCols : List String :=
  ["SKU", "Period", "Supply"]

/-- The missing-column computation of `load_real_data`:
`[col for col in required_cols if col not in df.columns]`. -/
def missingCols (required present : List String) : List String :=
  required.filter (fun c => !(present.contains c))

/-- The column validation of `load_real_data` (`main_sop.py` lines 70-89):
check the inventory table first, then demand, then supply; the first table with
missing columns raises an error naming exactly those missing columns. -/
def loadRealData (inv dem sup : List String) : Except (List String) Unit :=
  if missingCols requiredInventoryCols inv ≠ [] then
    .error (missingCols requiredInventoryCols inv)
  else if missingCols requiredDemandCols dem ≠ [] then
    .error (missingCols requiredDemandCols dem)
  else if missingCols requiredSupplyCols sup ≠ [] then
    .error (missingCols requiredSupplyCols sup)
  else .ok ()

/-- Outcome of `main()` in `main_sop.py` as far as data loading is concerned:
the exit code, whether the projection step (step 5, after loading at step 3)
was reached, and the missing columns reported on failure. -/
structure MainOutcome where
  exitCode : Nat
  projectionRan : Bool
  reportedMissing : List String
deriving Repr, DecidableEq, Inhabited

/-- `main()` of `main_sop.py` (lines 163-307): `load_real_data` runs before any
projection; any exception it raises is caught by the top-level handler, which
returns exit code 1, so a failed load aborts the run before any projection or
DRP simulation starts. -/
def mainModel (inv dem sup : List String) : MainOutcome :=
  match loadRealData inv dem sup with
  | .error missing => ⟨1, false, missing⟩
  | .ok _ => ⟨0, true, []⟩

/-- C9: Loading fails, aborting the run with the missing columns named before
any projection starts, if and only if some required column is absent from the
Registry, Demand or Supply table; the error carries exactly the missing
columns of the first failing table, and on success the projection runs with
exit code 0. -/
theorem load_validation_aborts (inv dem sup : List String) :
    (mainModel inv dem sup = ⟨0, true, []⟩
      ↔ (missingCols requiredInventoryCols inv = []
          ∧ missingCols requiredDemandCols dem = []
          ∧ missingCols requiredSupplyCols sup = []))
    ∧ (mainModel inv dem sup = ⟨1, false,
        if missingCols requiredInventoryCols inv ≠ [] then
          missingCols requiredInventoryCols inv
        else if missingCols requiredDemandCols dem ≠ [] then
          missingCols requiredDemandCols dem
        else missingCols requiredSupplyCols sup⟩
      ↔ ¬ (missingCols requiredInventoryCols inv = []
          ∧ missingCols requiredDemandCols dem = []
          ∧ missingCols requiredSupplyCols sup = []))
    ∧ ((mainModel inv dem sup).projectionRan = false
        ↔ (mainModel inv dem sup).exitCode = 1) := by
  unfold mainModel loadRealData
  split_ifs with h1 h2 h3 <;> simp_all

/-- C10: In the master pipeline `run_all_sop.py`, the outcome of `main()` as a
function of the success of its four scripted steps. -/
structure RunAllOutcome where
  exitCode : Nat
  stepsRun : List Nat
  warnedSteps : List Nat
deriving Repr, DecidableEq, Inhabited

/-- `main()` of `run_all_sop.py` (lines 73-217): step 1 (`main_sop.py`) runs
first; if it fails the flow prints an error and returns exit code 1 before any
later step runs (lines 91-99).  Otherwise steps 2-4 (`run_balanced_optimization
.py` and the two chart generators) all run; each failure among them only prints
a warning (lines 101-126) and the flow completes with exit code 0. -/
def runAllModel (s1 s2 s3 s4 : Bool) : RunAllOutcome :=
  if s1 = false then ⟨1, [1], []⟩
  else ⟨0, [1, 2, 3, 4],
    (if s2 then [] else [2]) ++ (if s3 then [] else [3]) ++ (if s4 then [] else [4])⟩

/-- C10: A failure of the first step aborts the master flow with exit code 1
before any later step runs, whereas failures of the optimization step or of
either chart-generation step only produce warnings and the flow still runs all
four steps to completion with exit code 0. -/
theorem run_all_error_policy (s2 s3 s4 : Bool) :
    runAllModel false s2 s3 s4 = ⟨1, [1], []⟩
    ∧ (runAllModel true s2 s3 s4).exitCode = 0
    ∧ (runAllModel true s2 s3 s4).stepsRun = [1, 2, 3, 4]
    ∧ (runAllModel true s2 s3 s4).warnedSteps
        = (if s2 then [] else [2]) ++ (if s3 then [] else [3])
            ++ (if s4 then [] else [4]) := by
  cases s2 <;> cases s3 <;> cases s4 <;> simp [runAllModel]
